import Mathlib

/-!
Shallow embedding of the telegram_mcp repository's session/connection
manager and command-dispatch layer.

The authoritative sources are:
* `src/telegram.js` (second document of `src/src/swagger.js`):
  `getClient`, `checkSessionsOnStartup`, session persistence;
* `src/config.js` (`src/unnamed/part_001`): environment/config loading
  with its fallback to dummy credential values;
* `mcp-server.js`: the stdio MCP tool handlers and `checkSessionExists`;
* `src/mcp/handler.js` (`src/unnamed/part_003`) and
  `src/mcp/manifest.js` (`src/unnamed/part_004`): the HTTP MCP dispatcher
  with AJV schema validation.

Conventions of the embedding:
* The on-disk sessions directory is a finite association list from file
  name to parsed file content; `JSON.parse` failure is one constructor.
* JavaScript's single-threaded cooperative scheduling is modelled by
  splitting `getClient` at its first `await`: the synchronous prefix
  (`getClientCheck`) and the awaited remainder (`getClientFinish`).
* Remote-backend behaviour (connect, isUserAuthorized, outcomes of
  successive `client.start` attempts) is an oracle `RemoteBehavior`;
  the finite list of start outcomes models the finite sequence of
  operator interactions of one run.
-/

namespace TelegramMcp

/-- Content of one persisted session-record file, as observed through
`JSON.parse`: either unparseable, or a JSON object with an optional
`session` string field and an optional `timestamp` field. -/
inductive FileContent where
  | unparseable
  | parsed (session : Option String) (timestamp : Option Nat)
deriving DecidableEq

/-- The sessions directory: file name to content. -/
abbrev FS := List (String × FileContent)

/-- Generic association-list lookup (first match wins), modelling reads
of a JS `Map` and of the directory by file name. -/
def lookupEntry {α : Type} : List (String × α) → String → Option α
  | [], _ => none
  | (k2, v) :: rest, k => if k2 = k then some v else lookupEntry rest k

/-- Generic overwrite, modelling `fs.writeFileSync` (replaces the prior
record for that name) and `Map.prototype.set`. -/
def writeEntry {α : Type} (xs : List (String × α)) (k : String) (v : α) :
    List (String × α) :=
  (k, v) :: xs.filter (fun e => e.1 ≠ k)

/-- `path.join(sessionsDir, sessionId + ".json")`, keyed by session id. -/
def sessionFileName (sessionId : String) : String := sessionId ++ ".json"

/-- Outcome of the session-record load performed at the top of
`getClient` (telegram.js lines 170-194): no file, a file without a
truthy `session` field (including parse failure), or a token. -/
inductive SessionLoad where
  | notFound
  | noToken
  | token (s : String)
deriving DecidableEq

/-- Whether the load produced a usable token (`existingSession` in the
source). -/
def SessionLoad.isToken : SessionLoad → Bool
  | .token _ => true
  | _ => false

/-- The load path of `getClient`: `fs.existsSync` / `JSON.parse` /
truthiness check of `sessionData.session` (an empty string is falsy). -/
def loadSession (fs : FS) (sessionId : String) : SessionLoad :=
  match lookupEntry fs (sessionFileName sessionId) with
  | none => .notFound
  | some .unparseable => .noToken
  | some (.parsed sess _) =>
    match sess with
    | none => .noToken
    | some s => if s = "" then .noToken else .token s

/-- The save performed after successful authorization (telegram.js
lines 284-288): `JSON.stringify({ session, timestamp })`. -/
def saveSession (fs : FS) (sessionId : String) (token : String) (ts : Nat) : FS :=
  writeEntry fs (sessionFileName sessionId) (.parsed (some token) (some ts))

/-- The process environment as config.js reads it: `API_ID` (already
`parseInt`-ed: `none` when unset or not a number) and `API_HASH`
(`none` when unset). -/
structure Env where
  apiIdVar : Option Nat
  apiHashVar : Option String
deriving DecidableEq

/-- Effective configuration exported by config.js. -/
structure Config where
  apiId : Nat
  apiHash : String
deriving DecidableEq

/-- `name.endsWith('.json')`, computed on the character list so that it
evaluates by reduction. -/
def endsWithJson (name : String) : Bool :=
  ".json".data.isSuffixOf name.data

/-- `fs.readdirSync(sessionPath).filter(f => f.endsWith('.json')).length > 0`. -/
def hasExistingSessions (files : FS) : Bool :=
  files.any (fun f => endsWithJson f.1)

/-- config.js lines 28-34: when the env variable is falsy (unset, `0`,
empty string), fall back to dummy values whenever any session file
exists in the sessions directory. -/
def mkConfig (env : Env) (files : FS) : Config :=
  let hs := hasExistingSessions files
  let apiId :=
    match env.apiIdVar with
    | some n => if n = 0 then (if hs then 1 else 0) else n
    | none => if hs then 1 else 0
  let apiHash :=
    match env.apiHashVar with
    | some h => if h = "" then (if hs then "dummy_hash_for_existing_sessions" else "") else h
    | none => if hs then "dummy_hash_for_existing_sessions" else ""
  ⟨apiId, apiHash⟩

/-- A live client handle. `sessionOnly` records whether it was built as
`SessionOnlyClient`; `apiId`/`apiHash` are the constructor arguments;
`authorizedNow` models what `isUserAuthorized()` would currently
report for this handle. -/
structure Client where
  id : Nat
  sessionOnly : Bool
  apiId : Nat
  apiHash : String
  authorizedNow : Bool
deriving DecidableEq

/-- The module-level `clientSessions` map. -/
abbrev Pool := List (String × Client)

/-- Shared mutable state of the module: the in-memory pool and the
sessions directory. -/
structure SessionState where
  pool : Pool
  fs : FS
deriving DecidableEq

/-- Outcome of one `client.start({...})` attempt, as distinguished by
the catch clause of the interactive loop (telegram.js lines 294-307). -/
inductive StartOutcome where
  | success (sessionString : String)
  | passwordInvalid
  | codeInvalid
  | otherError (msg : String)
deriving DecidableEq

/-- Oracle for the external remote backend: whether `connect()` on the
resumed session succeeds, what `isUserAuthorized()` then reports, and
the outcomes of successive `client.start` attempts. -/
structure RemoteBehavior where
  connectOk : Bool
  resumeAuthorized : Bool
  startOutcomes : List StartOutcome
deriving DecidableEq

/-- The typed errors `getClient` can throw. -/
inductive GetClientError where
  | missingCredentials
  | resumeFailedNoCreds
  | authExhausted
  | authError (msg : String)
deriving DecidableEq

/-- Return or throw of one `getClient` call. -/
inductive GetClientResult where
  | ok (c : Client)
  | error (e : GetClientError)
deriving DecidableEq

/-- End-to-end observation of one `getClient` call: its result, the
shared state it leaves behind, and how many `client.start` attempts
(interactive login-dialog rounds) it performed. -/
structure GetClientTrace where
  result : GetClientResult
  state : SessionState
  interactivePrompts : Nat
deriving DecidableEq

/-- Result of the synchronous prefix of `getClient` (everything before
the first `await`): either an immediate return from the pool, an
immediate throw, or a constructed client that proceeds to the awaited
part together with the captured `existingSession` flag. -/
inductive CheckResult where
  | hit (c : Client)
  | fail (e : GetClientError)
  | pend (c : Client) (existingSession : Bool)
deriving DecidableEq

/-- Synchronous prefix of `getClient` (telegram.js lines 160-225): the
in-memory pool check, the session-file load, the credentials guard
`!existingSession && (!config.apiId || !config.apiHash)`, and client
construction (`SessionOnlyClient` with placeholder credentials when a
session exists, standard `TelegramClient` with the configured
credentials otherwise). -/
def getClientCheck (cfg : Config) (st : SessionState) (sessionId : String)
    (freshId : Nat) (forceNew : Bool) : CheckResult :=
  match (if forceNew then none else lookupEntry st.pool sessionId) with
  | some c => .hit c
  | none =>
    let existingSession := (loadSession st.fs sessionId).isToken
    if !existingSession && (cfg.apiId == 0 || cfg.apiHash == "") then
      .fail .missingCredentials
    else if existingSession then
      .pend ⟨freshId, true, 1, "placeholder_hash", false⟩ true
    else
      .pend ⟨freshId, false, cfg.apiId, cfg.apiHash, false⟩ false

/-- The interactive authorization loop of `getClient` (telegram.js lines
259-308): `while (!authorized && attempts < 3)`; each iteration runs
`client.start`; `PASSWORD_HASH_INVALID` keeps the increment of
`attempts`, `PHONE_CODE_INVALID` undoes it (`attempts--`), any other
error is rethrown; success writes the session file, registers the
client in the pool and leaves the loop; exhaustion throws. The list of
outcomes is the finite sequence of operator interactions of this run;
its exhaustion (an operator that stops answering) is modelled as a
thrown error. -/
def authLoop (fn sessionId : String) (cl : Client) (ts : Nat) :
    List StartOutcome → Nat → SessionState → Nat → GetClientTrace
  | [], attempts, st, prompts =>
    if attempts < 3 then ⟨.error (.authError "input exhausted"), st, prompts⟩
    else ⟨.error .authExhausted, st, prompts⟩
  | o :: rest, attempts, st, prompts =>
    if attempts < 3 then
      match o with
      | .success s =>
        let c2 : Client := { cl with authorizedNow := true }
        ⟨.ok c2,
         ⟨writeEntry st.pool sessionId c2,
          writeEntry st.fs fn (.parsed (some s) (some ts))⟩,
         prompts + 1⟩
      | .passwordInvalid =>
        authLoop fn sessionId cl ts rest (attempts + 1) st (prompts + 1)
      | .codeInvalid =>
        authLoop fn sessionId cl ts rest (attempts + 1 - 1) st (prompts + 1)
      | .otherError m => ⟨.error (.authError m), st, prompts + 1⟩
    else ⟨.error .authExhausted, st, prompts⟩

/-- Awaited remainder of `getClient` (telegram.js lines 232-314): the
resumption attempt with the stored session when one was found (return
on `isUserAuthorized()`, dedicated throw when connect fails and no
credentials are configured, fall-through to interactive login
otherwise), then the interactive loop. -/
def getClientFinish (cfg : Config) (st : SessionState) (sessionId : String)
    (remote : RemoteBehavior) (ts : Nat) (cl : Client) (existingSession : Bool) :
    GetClientTrace :=
  if existingSession then
    if remote.connectOk then
      if remote.resumeAuthorized then
        let c2 : Client := { cl with authorizedNow := true }
        ⟨.ok c2, ⟨writeEntry st.pool sessionId c2, st.fs⟩, 0⟩
      else
        authLoop (sessionFileName sessionId) sessionId cl ts remote.startOutcomes 0 st 0
    else
      if cfg.apiId == 0 || cfg.apiHash == "" then
        ⟨.error .resumeFailedNoCreds, st, 0⟩
      else
        authLoop (sessionFileName sessionId) sessionId cl ts remote.startOutcomes 0 st 0
  else
    authLoop (sessionFileName sessionId) sessionId cl ts remote.startOutcomes 0 st 0

/-- One complete `getClient(sessionId, forceNew)` call run without
interference: the synchronous prefix followed by the awaited part.
`freshId` is the identity of the client object this call would
construct; `ts` is `Date.now()` at save time. -/
def getClient (cfg : Config) (st : SessionState) (sessionId : String)
    (remote : RemoteBehavior) (freshId ts : Nat) (forceNew : Bool) :
    GetClientTrace :=
  match getClientCheck cfg st sessionId freshId forceNew with
  | .hit c => ⟨.ok c, st, 0⟩
  | .fail e => ⟨.error e, st, 0⟩
  | .pend c ex => getClientFinish cfg st sessionId remote ts c ex

/-- The cooperative-concurrency schedule in which two callers both run
the synchronous prefix of `getClient` for the same identifier before
either reaches its first `await`: check 1, check 2, awaited part 1,
awaited part 2 (the second awaited part sees the state left by the
first, as the module-level `clientSessions` map and the directory are
shared). `none` when either caller returns or throws already in its
synchronous prefix. -/
def raceInterleaving (cfg : Config) (st : SessionState) (sessionId : String)
    (remote1 remote2 : RemoteBehavior) (ts : Nat) :
    Option (GetClientTrace × GetClientTrace) :=
  match getClientCheck cfg st sessionId 1 false,
        getClientCheck cfg st sessionId 2 false with
  | .pend c1 ex1, .pend c2 ex2 =>
    let t1 := getClientFinish cfg st sessionId remote1 ts c1 ex1
    let t2 := getClientFinish cfg t1.state sessionId remote2 ts c2 ex2
    some (t1, t2)
  | _, _ => none

/-- Validity test applied to each record by the startup scan
(telegram.js lines 345-355): the file parses and has a truthy
`session` field. -/
def recordValid : FileContent → Bool
  | .parsed (some s) _ => s != ""
  | _ => false

/-- `path.basename(file, '.json')`: strip the 5-character extension,
computed on the character list so that it evaluates by reduction. -/
def stripJsonExt (name : String) : String :=
  ⟨name.data.take (name.data.length - 5)⟩

/-- The reconciliation scan of `checkSessionsOnStartup` (telegram.js
lines 331-356): list the `.json` files, keep the identifiers of those
whose record is valid; invalid records are only logged. -/
def scanValidSessions (files : FS) : List String :=
  (files.filter (fun f => endsWithJson f.1)).filterMap
    (fun f => if recordValid f.2 then some (stripJsonExt f.1) else none)

/-- `checkSessionExists` of mcp-server.js (lines 20-42): the session
file must exist, parse, and carry a truthy `session` field. -/
def checkSessionExists (fs : FS) (session : String) : Bool :=
  match lookupEntry fs (sessionFileName session) with
  | none => false
  | some .unparseable => false
  | some (.parsed sess _) =>
    match sess with
    | none => false
    | some s => s != ""

/-- The fixed text returned by every stdio tool when the session record
is missing or invalid. -/
def missingSessionText (session : String) : String :=
  "Session file for " ++ session ++
    " does not exist or is invalid. Please create a session first."

/-- Observation of one stdio tool invocation: the reply it returns and
whether it called into the telegram layer at all. -/
structure ToolRun where
  isError : Bool
  text : String
  telegramCalled : Bool
deriving DecidableEq

/-- The `getDialogs` stdio tool handler (mcp-server.js lines 47-84):
session check first, then the call into telegram.js, whose throw is
caught and converted. The telegram layer itself is passed in as a
function, since the handler only forwards to it. -/
def getDialogsHandler (fs : FS)
    (telegramGetDialogs : String → Nat → Except String String)
    (session : String) (limit : Nat) : ToolRun :=
  if checkSessionExists fs session then
    match telegramGetDialogs session limit with
    | .ok t => ⟨false, t, true⟩
    | .error m => ⟨true, "Error getting dialogs: " ++ m, true⟩
  else ⟨true, missingSessionText session, false⟩

/-- The `getMessages` stdio tool handler (mcp-server.js lines 87-125). -/
def getMessagesHandler (fs : FS)
    (telegramGetMessages : String → String → Nat → Except String String)
    (session chatId : String) (limit : Nat) : ToolRun :=
  if checkSessionExists fs session then
    match telegramGetMessages session chatId limit with
    | .ok t => ⟨false, t, true⟩
    | .error m => ⟨true, "Error getting messages: " ++ m, true⟩
  else ⟨true, missingSessionText session, false⟩

/-- The `sendMessage` stdio tool handler (mcp-server.js lines 128-166). -/
def sendMessageHandler (fs : FS)
    (telegramSendMessage : String → String → String → Except String String)
    (session chatId message : String) : ToolRun :=
  if checkSessionExists fs session then
    match telegramSendMessage session chatId message with
    | .ok t => ⟨false, t, true⟩
    | .error m => ⟨true, "Error sending message: " ++ m, true⟩
  else ⟨true, missingSessionText session, false⟩

/-- JSON parameter values, at the granularity the dispatcher and the
tool schemas distinguish. -/
inductive Json where
  | str (s : String)
  | int (n : Int)
  | obj (fields : List (String × Json))

/-- The `executeMethod` stdio tool handler (mcp-server.js lines 169-207). -/
def executeMethodHandler (fs : FS)
    (telegramExecuteMethod : String → String → List (String × Json) → Except String String)
    (session method : String) (params : List (String × Json)) : ToolRun :=
  if checkSessionExists fs session then
    match telegramExecuteMethod session method params with
    | .ok t => ⟨false, t, true⟩
    | .error m => ⟨true, "Error executing method: " ++ m, true⟩
  else ⟨true, missingSessionText session, false⟩

/-- The JSON-schema type names used by the tool schemas. -/
inductive PropType where
  | string
  | integer
  | object
deriving DecidableEq

/-- One property of a tool schema: its name, declared type, and
declared default value if any. -/
structure PropSchema where
  name : String
  ptype : PropType
  dflt : Option Json

/-- One tool's declared parameter schema (manifest.js). -/
structure ToolSchema where
  properties : List PropSchema
  required : List String

/-- manifest.js `toolSchemas.getDialogs`. -/
def getDialogsSchema : ToolSchema :=
  ⟨[⟨"session", .string, none⟩, ⟨"limit", .integer, some (.int 100)⟩],
   ["session"]⟩

/-- manifest.js `toolSchemas.getMessages`. -/
def getMessagesSchema : ToolSchema :=
  ⟨[⟨"session", .string, none⟩, ⟨"chatId", .string, none⟩,
    ⟨"limit", .integer, some (.int 100)⟩],
   ["session", "chatId"]⟩

/-- manifest.js `toolSchemas.sendMessage`. -/
def sendMessageSchema : ToolSchema :=
  ⟨[⟨"session", .string, none⟩, ⟨"chatId", .string, none⟩,
    ⟨"message", .string, none⟩],
   ["session", "chatId", "message"]⟩

/-- manifest.js `toolSchemas.executeMethod`. -/
def executeMethodSchema : ToolSchema :=
  ⟨[⟨"session", .string, none⟩, ⟨"method", .string, none⟩,
    ⟨"params", .object, some (.obj [])⟩],
   ["session", "method"]⟩

/-- The tool registry of handler.js (lines 19-24). -/
def toolSchemaFor : String → Option ToolSchema
  | "getDialogs" => some getDialogsSchema
  | "getMessages" => some getMessagesSchema
  | "sendMessage" => some sendMessageSchema
  | "executeMethod" => some executeMethodSchema
  | _ => none

/-- Does a value satisfy a declared schema type? -/
def typeMatches : PropType → Json → Bool
  | .string, .str _ => true
  | .integer, .int _ => true
  | .object, .obj _ => true
  | _, _ => false

/-- AJV with `useDefaults: true`: a property that declares a default
and is absent from the object is assigned its default. -/
def applyDefaults : List PropSchema → List (String × Json) → List (String × Json)
  | [], params => params
  | p :: rest, params =>
    let params2 :=
      match p.dflt, lookupEntry params p.name with
      | some d, none => params ++ [(p.name, d)]
      | _, _ => params
    applyDefaults rest params2

/-- AJV `required`: every required name present. -/
def requiredOk (req : List String) (params : List (String × Json)) : Bool :=
  req.all fun r => (lookupEntry params r).isSome

/-- AJV property typing: every declared property that is present has
the declared type (unknown properties are ignored, as no schema sets
`additionalProperties`). -/
def typesOk (props : List PropSchema) (params : List (String × Json)) : Bool :=
  props.all fun p =>
    match lookupEntry params p.name with
    | some v => typeMatches p.ptype v
    | none => true

/-- Full AJV validation of one tool call: defaults applied, required
and type checks; returns the verdict and the parameters as mutated by
`useDefaults`. -/
def ajvValidate (ts : ToolSchema) (params : List (String × Json)) :
    Bool × List (String × Json) :=
  let withDefaults := applyDefaults ts.properties params
  (requiredOk ts.required withDefaults && typesOk ts.properties withDefaults,
   withDefaults)

/-- The distinct responses `handleMcpRequest` can produce, one
constructor per `return` site of handler.js (the diagnostic strings of
`ajv.errorsText` are abstracted). -/
inductive McpResponse where
  | invalidRequest
  | functionNotFound (name : String)
  | invalidParameters (name : String)
  | success (payload : String)
  | executionError (name msg : String)
deriving DecidableEq

/-- One incoming `function_call` object. -/
structure McpCall where
  name : String
  parameters : Option (List (String × Json))

/-- `handleMcpRequest` of handler.js: request-shape check, registry
lookup, AJV validation, then tool execution; the Bool records whether
the tool function (and hence the remote backend path) was invoked. -/
def handleMcpRequest
    (exec : String → List (String × Json) → Except String String)
    (call : Option McpCall) : McpResponse × Bool :=
  match call with
  | none => (.invalidRequest, false)
  | some c =>
    match toolSchemaFor c.name with
    | none => (.functionNotFound c.name, false)
    | some schema =>
      let paramsToValidate := c.parameters.getD []
      let v := ajvValidate schema paramsToValidate
      if v.1 then
        match exec c.name v.2 with
        | .ok payload => (.success payload, true)
        | .error m => (.executionError c.name m, true)
      else (.invalidParameters c.name, false)

/-! ## Helper lemmas -/

theorem lookupEntry_writeEntry_self {α : Type} (xs : List (String × α))
    (k : String) (v : α) :
    lookupEntry (writeEntry xs k v) k = some v := by
  simp [writeEntry, lookupEntry]

theorem lookupEntry_append {α : Type} (a b : List (String × α)) (k : String) :
    lookupEntry (a ++ b) k
      = ((lookupEntry a k).rec (lookupEntry b k) (fun v => some v) : Option α) := by
  induction a with
  | nil => simp [lookupEntry]
  | cons e rest ih =>
    obtain ⟨k2, v⟩ := e
    by_cases hk : k2 = k <;> simp [lookupEntry, hk, ih]

/-- A shared lemma: the pool-hit branch of `getClient` returns the
cached client unchanged, touching neither the state nor the remote
backend. -/
theorem getClient_cached (cfg : Config) (st : SessionState) (sid : String)
    (remote : RemoteBehavior) (fid ts : Nat) (c : Client)
    (h : lookupEntry st.pool sid = some c) :
    getClient cfg st sid remote fid ts false = ⟨.ok c, st, 0⟩ := by
  simp [getClient, getClientCheck, h]

/-- In every successful run of the interactive loop, the returned
client is the one registered in the pool for that identifier. -/
theorem authLoop_ok_registers_pool (fn sid : String) (cl : Client) (ts : Nat)
    (outs : List StartOutcome) (a : Nat) (st : SessionState) (p : Nat) (c2 : Client)
    (h : (authLoop fn sid cl ts outs a st p).result = .ok c2) :
    lookupEntry (authLoop fn sid cl ts outs a st p).state.pool sid = some c2 := by
  induction outs generalizing a p with
  | nil => by_cases ha : a < 3 <;> simp [authLoop, ha] at h
  | cons o rest ih =>
    by_cases ha : a < 3
    · cases o with
      | success s =>
        simp [authLoop, ha] at h ⊢
        rw [← h]
        exact lookupEntry_writeEntry_self _ _ _
      | passwordInvalid =>
        simp only [authLoop, if_pos ha] at h ⊢
        exact ih _ _ h
      | codeInvalid =>
        simp only [authLoop, if_pos ha] at h ⊢
        exact ih _ _ h
      | otherError m => simp [authLoop, ha] at h
    · simp [authLoop, ha] at h

/-- A `hit` from the synchronous prefix comes from the pool. -/
theorem getClientCheck_hit_pool (cfg : Config) (st : SessionState) (sid : String)
    (fid : Nat) (fn2 : Bool) (c : Client)
    (h : getClientCheck cfg st sid fid fn2 = .hit c) :
    lookupEntry st.pool sid = some c := by
  unfold getClientCheck at h
  cases fn2 with
  | true =>
    simp at h
    split at h <;> (try split at h) <;> simp_all
  | false =>
    cases hl : lookupEntry st.pool sid with
    | some c0 => simp [hl] at h; simp [h]
    | none =>
      simp [hl] at h
      split at h <;> (try split at h) <;> simp_all

/-- In every successful `getClientFinish`, the returned client is the
one registered in the pool for that identifier. -/
theorem getClientFinish_ok_registers_pool (cfg : Config) (st : SessionState)
    (sid : String) (remote : RemoteBehavior) (ts : Nat) (cl : Client) (ex : Bool)
    (c : Client)
    (h : (getClientFinish cfg st sid remote ts cl ex).result = .ok c) :
    lookupEntry (getClientFinish cfg st sid remote ts cl ex).state.pool sid
      = some c := by
  unfold getClientFinish at h ⊢
  cases ex with
  | false => exact authLoop_ok_registers_pool _ _ _ _ _ _ _ _ _ h
  | true =>
    cases hco : remote.connectOk with
    | true =>
      cases hra : remote.resumeAuthorized with
      | true =>
        simp [hco, hra] at h ⊢
        rw [← h]
        exact lookupEntry_writeEntry_self _ _ _
      | false =>
        simp only [hco, hra, if_pos, if_neg, Bool.false_eq_true, if_true, if_false] at h ⊢
        exact authLoop_ok_registers_pool _ _ _ _ _ _ _ _ _ h
    | false =>
      cases hcred : (cfg.apiId == 0 || cfg.apiHash == "") with
      | true => simp [hco, hcred] at h
      | false =>
        simp only [hco, hcred, Bool.false_eq_true, if_false] at h ⊢
        exact authLoop_ok_registers_pool _ _ _ _ _ _ _ _ _ h

/-- Every successful `getClient` call leaves the returned client
registered in the pool under its identifier. -/
theorem getClient_ok_registers_pool (cfg : Config) (st : SessionState)
    (sid : String) (remote : RemoteBehavior) (fid ts : Nat) (fn2 : Bool) (c : Client)
    (h : (getClient cfg st sid remote fid ts fn2).result = .ok c) :
    lookupEntry (getClient cfg st sid remote fid ts fn2).state.pool sid = some c := by
  unfold getClient at h ⊢
  cases hc : getClientCheck cfg st sid fid fn2 with
  | hit c0 =>
    rw [hc] at h
    simp at h
    rw [← h]
    exact getClientCheck_hit_pool _ _ _ _ _ _ hc
  | fail e => rw [hc] at h; simp at h
  | pend c0 ex =>
    rw [hc] at h
    exact getClientFinish_ok_registers_pool _ _ _ _ _ _ _ _ h

/-! ## Claim theorems -/

/-- C3: after exactly 3 consecutive invalid second-factor passwords the
login dialog terminates with the auth-exhausted failure, and the
on-disk state for that identifier is unchanged (no SessionRecord is
written). -/
theorem getClient_three_bad_passwords (cfg : Config) (st : SessionState)
    (sid : String) (remote : RemoteBehavior) (fid ts : Nat)
    (rest : List StartOutcome)
    (hpool : lookupEntry st.pool sid = none)
    (hload : (loadSession st.fs sid).isToken = false)
    (hid : cfg.apiId ≠ 0) (hhash : cfg.apiHash ≠ "")
    (houts : remote.startOutcomes
      = .passwordInvalid :: .passwordInvalid :: .passwordInvalid :: rest) :
    getClient cfg st sid remote fid ts false = ⟨.error .authExhausted, st, 3⟩ := by
  have hcred : (cfg.apiId == 0 || cfg.apiHash == "") = false := by
    simp [hid, hhash]
  simp only [getClient, getClientCheck, hpool, hload, hcred, Bool.not_false,
    Bool.true_and, Bool.false_eq_true, if_false, getClientFinish, houts]
  cases rest <;> simp [authLoop]

theorem getClient_three_bad_passwords_w :
    getClient ⟨7, "h"⟩ ⟨[], []⟩ "+2"
        ⟨true, true, [.passwordInvalid, .passwordInvalid, .passwordInvalid]⟩ 1 0 false
      = ⟨.error .authExhausted, ⟨[], []⟩, 3⟩ :=
  getClient_three_bad_passwords ⟨7, "h"⟩ ⟨[], []⟩ "+2"
    ⟨true, true, [.passwordInvalid, .passwordInvalid, .passwordInvalid]⟩ 1 0 []
    rfl rfl (by decide) (by decide) rfl

/-- C4: with a persisted token that the remote backend still accepts,
`getClient` returns an authenticated handle after resumption, with
zero interactive login-dialog rounds: the resumed client is registered
and returned before any interactive step, regardless of the configured
credentials. -/
theorem getClient_resume_skips_interactive (cfg : Config) (st : SessionState)
    (sid tok : String) (remote : RemoteBehavior) (fid ts : Nat)
    (hpool : lookupEntry st.pool sid = none)
    (hload : loadSession st.fs sid = .token tok)
    (hconn : remote.connectOk = true)
    (hauth : remote.resumeAuthorized = true) :
    getClient cfg st sid remote fid ts false
      = ⟨.ok ⟨fid, true, 1, "placeholder_hash", true⟩,
         ⟨writeEntry st.pool sid ⟨fid, true, 1, "placeholder_hash", true⟩, st.fs⟩,
         0⟩ := by
  simp [getClient, getClientCheck, hpool, hload, SessionLoad.isToken,
    getClientFinish, hconn, hauth]

theorem getClient_resume_skips_interactive_w :
    getClient ⟨0, ""⟩ ⟨[], [("+1.json", .parsed (some "tok") (some 3))]⟩ "+1"
        ⟨true, true, []⟩ 5 9 false
      = ⟨.ok ⟨5, true, 1, "placeholder_hash", true⟩,
         ⟨writeEntry [] "+1" ⟨5, true, 1, "placeholder_hash", true⟩,
          [("+1.json", .parsed (some "tok") (some 3))]⟩, 0⟩ :=
  getClient_resume_skips_interactive ⟨0, ""⟩
    ⟨[], [("+1.json", .parsed (some "tok") (some 3))]⟩ "+1" "tok"
    ⟨true, true, []⟩ 5 9 rfl (by decide) rfl rfl

/-- C5 (amended): on a Connection Pool hit, `getClient` returns the
cached handle unconditionally — for every remote-backend behaviour the
result, the state and the prompt count are the same, so the handle's
current authorization status is never consulted and a stale handle is
never invalidated at this layer. -/
theorem getClient_pool_hit_unconditional (cfg : Config) (st : SessionState)
    (sid : String) (remote : RemoteBehavior) (fid ts : Nat) (c : Client)
    (h : lookupEntry st.pool sid = some c) :
    getClient cfg st sid remote fid ts false = ⟨.ok c, st, 0⟩ :=
  getClient_cached cfg st sid remote fid ts c h

theorem getClient_pool_hit_unconditional_w :
    getClient ⟨111, "h"⟩ ⟨[("+1000", ⟨7, false, 111, "h", false⟩)], []⟩ "+1000"
        ⟨false, false, []⟩ 9 0 false
      = ⟨.ok ⟨7, false, 111, "h", false⟩,
         ⟨[("+1000", ⟨7, false, 111, "h", false⟩)], []⟩, 0⟩ :=
  getClient_pool_hit_unconditional ⟨111, "h"⟩
    ⟨[("+1000", ⟨7, false, 111, "h", false⟩)], []⟩ "+1000" ⟨false, false, []⟩ 9 0
    ⟨7, false, 111, "h", false⟩ rfl

/-- C5 counterexample: a pooled handle that currently reports itself
not authorized (`authorizedNow = false`) is returned as-is on a pool
hit — it is not verified, not invalidated and not re-created, so the
claim that a no-longer-authenticated handle is never silently reused
is false. -/
theorem pool_hit_returns_stale_handle_cex :
    getClient ⟨111, "h"⟩ ⟨[("+1000", ⟨7, false, 111, "h", false⟩)], []⟩ "+1000"
        ⟨false, false, []⟩ 9 0 false
      = ⟨.ok ⟨7, false, 111, "h", false⟩,
         ⟨[("+1000", ⟨7, false, 111, "h", false⟩)], []⟩, 0⟩
    ∧ (⟨7, false, 111, "h", false⟩ : Client).authorizedNow = false := by
  exact ⟨by decide, rfl⟩

/-- C6: an invalid one-time code does not consume a password attempt —
the loop continues with the same attempt counter — and consequently
any number of invalid codes followed by a success still authenticates
(code retries are unbounded by this layer, while password attempts
stay bounded by 3). -/
theorem authLoop_code_invalid_free_retries (fn sid : String) (cl : Client)
    (ts : Nat) (rest : List StartOutcome) (a p n pn : Nat) (st : SessionState)
    (s : String)
    (h : a < 3) :
    authLoop fn sid cl ts (.codeInvalid :: rest) a st p
      = authLoop fn sid cl ts rest a st (p + 1)
    ∧ (authLoop fn sid cl ts (List.replicate n .codeInvalid ++ [.success s])
        0 st pn).result = .ok { cl with authorizedNow := true } := by
  constructor
  · simp [authLoop, h]
  · induction n generalizing pn with
    | zero => simp [authLoop]
    | succ k ih => simpa [authLoop] using ih (pn + 1)

theorem authLoop_code_invalid_free_retries_w :
    authLoop "+3.json" "+3" ⟨1, false, 4, "h", false⟩ 0 [.codeInvalid, .success "t"] 0 ⟨[], []⟩ 0
      = authLoop "+3.json" "+3" ⟨1, false, 4, "h", false⟩ 0 [.success "t"] 0 ⟨[], []⟩ 1
    ∧ (authLoop "+3.json" "+3" ⟨1, false, 4, "h", false⟩ 0
        (List.replicate 2 .codeInvalid ++ [.success "t"]) 0 ⟨[], []⟩ 0).result
      = .ok ⟨1, false, 4, "h", true⟩ :=
  authLoop_code_invalid_free_retries "+3.json" "+3" ⟨1, false, 4, "h", false⟩ 0
    [.success "t"] 0 0 2 0 ⟨[], []⟩ "t" (by decide)

/-- C1 (amended): when neither `API_ID` nor `API_HASH` is set in the
environment and no session files at all exist in the sessions
directory (so config falls back to empty credentials rather than the
dummy values), `getClient` for an identifier with no persisted record
and no pooled client fails with the missing-credentials error,
performs no persisted write and runs no interactive login round. -/
theorem getClient_missing_credentials_when_no_sessions
    (env : Env) (files : FS) (pool : Pool) (sid : String)
    (remote : RemoteBehavior) (fid ts : Nat)
    (hid : env.apiIdVar = none) (hhash : env.apiHashVar = none)
    (hnofiles : hasExistingSessions files = false)
    (hpool : lookupEntry pool sid = none)
    (hfile : lookupEntry files (sessionFileName sid) = none) :
    getClient (mkConfig env files) ⟨pool, files⟩ sid remote fid ts false
      = ⟨.error .missingCredentials, ⟨pool, files⟩, 0⟩ := by
  have hcfg : mkConfig env files = ⟨0, ""⟩ := by
    simp [mkConfig, hid, hhash, hnofiles]
  rw [hcfg]
  simp [getClient, getClientCheck, hpool, loadSession, hfile, SessionLoad.isToken]

theorem getClient_missing_credentials_when_no_sessions_w :
    getClient (mkConfig ⟨none, none⟩ []) ⟨[], []⟩ "+1000" ⟨false, false, []⟩ 1 0 false
      = ⟨.error .missingCredentials, ⟨[], []⟩, 0⟩ :=
  getClient_missing_credentials_when_no_sessions ⟨none, none⟩ [] [] "+1000"
    ⟨false, false, []⟩ 1 0 rfl rfl rfl rfl rfl

/-- C1 counterexample: with no environment credentials but one session
file present for a *different* identifier, config substitutes the
dummy credential pair, and `getClient` for the fresh identifier (which
has no persisted record, as the second conjunct shows) does not fail
with the missing-credentials error: it runs an interactive login round
with the placeholder credentials, writes a session record and
returns. -/
theorem getClient_substitutes_placeholder_credentials_cex :
    (mkConfig ⟨none, none⟩ [("+7999.json", .parsed (some "tok") (some 0))]).apiId = 1
    ∧ (mkConfig ⟨none, none⟩ [("+7999.json", .parsed (some "tok") (some 0))]).apiHash
        = "dummy_hash_for_existing_sessions"
    ∧ lookupEntry [(("+7999.json" : String), FileContent.parsed (some "tok") (some 0))]
        (sessionFileName "fresh") = none
    ∧ (getClient (mkConfig ⟨none, none⟩ [("+7999.json", .parsed (some "tok") (some 0))])
        ⟨[], [("+7999.json", .parsed (some "tok") (some 0))]⟩ "fresh"
        ⟨true, true, [.success "newtok"]⟩ 1 5 false).result
        = .ok ⟨1, false, 1, "dummy_hash_for_existing_sessions", true⟩
    ∧ (getClient (mkConfig ⟨none, none⟩ [("+7999.json", .parsed (some "tok") (some 0))])
        ⟨[], [("+7999.json", .parsed (some "tok") (some 0))]⟩ "fresh"
        ⟨true, true, [.success "newtok"]⟩ 1 5 false).result
        ≠ .error .missingCredentials
    ∧ (getClient (mkConfig ⟨none, none⟩ [("+7999.json", .parsed (some "tok") (some 0))])
        ⟨[], [("+7999.json", .parsed (some "tok") (some 0))]⟩ "fresh"
        ⟨true, true, [.success "newtok"]⟩ 1 5 false).state.fs
        ≠ [("+7999.json", .parsed (some "tok") (some 0))]
    ∧ (getClient (mkConfig ⟨none, none⟩ [("+7999.json", .parsed (some "tok") (some 0))])
        ⟨[], [("+7999.json", .parsed (some "tok") (some 0))]⟩ "fresh"
        ⟨true, true, [.success "newtok"]⟩ 1 5 false).interactivePrompts = 1 := by
  exact ⟨by decide, by decide, by decide, by decide, by decide, by decide, by decide⟩

/-- C2 (amended): a second call for the same identifier that starts
only after a successful first call has completed reuses the registered
handle — it returns the very same client, changes nothing and runs no
authentication or resumption sequence. (Truly concurrent calls are not
serialized; see the counterexample.) -/
theorem getClient_sequential_second_call_reuses_handle
    (cfg cfg2 : Config) (st : SessionState) (sid : String)
    (remote remote2 : RemoteBehavior) (f1 f2 ts ts2 : Nat) (c : Client)
    (h : (getClient cfg st sid remote f1 ts false).result = .ok c) :
    getClient cfg2 (getClient cfg st sid remote f1 ts false).state sid remote2
        f2 ts2 false
      = ⟨.ok c, (getClient cfg st sid remote f1 ts false).state, 0⟩ := by
  have hp := getClient_ok_registers_pool cfg st sid remote f1 ts false c h
  exact getClient_cached cfg2 _ sid remote2 f2 ts2 c hp

theorem getClient_sequential_second_call_reuses_handle_w :
    getClient ⟨5, "h"⟩
        (getClient ⟨5, "h"⟩ ⟨[], []⟩ "+1000" ⟨true, true, [.success "tok"]⟩ 1 0 false).state
        "+1000" ⟨true, true, [.success "tok2"]⟩ 2 9 false
      = ⟨.ok ⟨1, false, 5, "h", true⟩,
         (getClient ⟨5, "h"⟩ ⟨[], []⟩ "+1000" ⟨true, true, [.success "tok"]⟩ 1 0 false).state,
         0⟩ :=
  getClient_sequential_second_call_reuses_handle ⟨5, "h"⟩ ⟨5, "h"⟩ ⟨[], []⟩ "+1000"
    ⟨true, true, [.success "tok"]⟩ ⟨true, true, [.success "tok2"]⟩ 1 2 0 9
    ⟨1, false, 5, "h", true⟩ (by decide)

/-- C2 counterexample: under the schedule in which both callers run
their synchronous prefix before either reaches its first `await`
(possible because the pool is only updated after authentication
completes and there is no in-flight marker), both callers run a full
interactive authentication sequence (one login-dialog round each) and
receive two distinct handles — not one sequence and one shared
handle. -/
theorem race_duplicate_login_cex :
    ((raceInterleaving ⟨12345, "hash"⟩ ⟨[], []⟩ "+1000"
        ⟨true, true, [.success "tokA"]⟩ ⟨true, true, [.success "tokB"]⟩ 7).map
      fun p => (p.1.result, p.1.interactivePrompts, p.2.result, p.2.interactivePrompts))
      = some (.ok ⟨1, false, 12345, "hash", true⟩, 1,
              .ok ⟨2, false, 12345, "hash", true⟩, 1)
    ∧ (⟨1, false, 12345, "hash", true⟩ : Client) ≠ ⟨2, false, 12345, "hash", true⟩ := by
  exact ⟨by decide, by decide⟩

theorem lookupEntry_append_none {α : Type} (a b : List (String × α)) (k : String)
    (h : lookupEntry a k = none) :
    lookupEntry (a ++ b) k = lookupEntry b k := by
  induction a with
  | nil => simp [lookupEntry]
  | cons e rest ih =>
    obtain ⟨k2, v⟩ := e
    by_cases hk : k2 = k
    · simp [lookupEntry, hk] at h
    · simp only [List.cons_append, lookupEntry, if_neg hk] at h ⊢
      exact ih h

/-- C7: every dispatch of `getMessages` whose parameters lack the
required `chatId` field is rejected by schema validation — the
response is the invalid-parameters failure and the tool function (and
hence the remote backend) is never invoked. -/
theorem dispatch_getMessages_missing_chatId
    (exec : String → List (String × Json) → Except String String)
    (params : List (String × Json))
    (h : lookupEntry params "chatId" = none) :
    handleMcpRequest exec (some ⟨"getMessages", some params⟩)
      = (.invalidParameters "getMessages", false) := by
  have hwd : lookupEntry (applyDefaults getMessagesSchema.properties params)
      "chatId" = none := by
    cases hl : lookupEntry params "limit" with
    | none =>
      simp only [getMessagesSchema, applyDefaults, hl]
      rw [lookupEntry_append_none _ _ _ h]
      simp [lookupEntry]
    | some v => simpa [getMessagesSchema, applyDefaults, hl] using h
  simp [handleMcpRequest, toolSchemaFor, ajvValidate, requiredOk, hwd]
  intro hreq _
  have hc := hreq "chatId" (by simp [getMessagesSchema])
  simp [hwd] at hc

theorem dispatch_getMessages_missing_chatId_w :
    handleMcpRequest (fun _ _ => .ok "payload")
        (some ⟨"getMessages", some [("session", .str "+1000")]⟩)
      = (.invalidParameters "getMessages", false) :=
  dispatch_getMessages_missing_chatId (fun _ _ => .ok "payload")
    [("session", .str "+1000")] rfl

/-- C8: the startup reconciliation scan yields exactly the identifiers
of `.json` records that parse and carry a non-empty `session` token;
and an invalid record (such as `{}`, with no session field, or
unparseable content) is skipped without affecting the rest of the
scan, which always runs to completion. -/
theorem scan_valid_sessions_spec (files pre post : FS) (badName : String)
    (badContent : FileContent) (sid : String)
    (hbad : recordValid badContent = false) :
    (sid ∈ scanValidSessions files ↔
      ∃ name s t, (name, FileContent.parsed (some s) t) ∈ files
        ∧ endsWithJson name = true ∧ s ≠ "" ∧ stripJsonExt name = sid)
    ∧ scanValidSessions (pre ++ (badName, badContent) :: post)
      = scanValidSessions (pre ++ post) := by
  constructor
  · constructor
    · intro hmem
      simp only [scanValidSessions, List.mem_filterMap, List.mem_filter] at hmem
      obtain ⟨⟨name, c⟩, ⟨hin, hjson⟩, hf⟩ := hmem
      cases c with
      | unparseable => simp [recordValid] at hf
      | parsed sess t =>
        cases sess with
        | none => simp [recordValid] at hf
        | some s =>
          by_cases hs : s = ""
          · simp [recordValid, hs] at hf
          · refine ⟨name, s, t, hin, hjson, hs, ?_⟩
            simp [recordValid, hs] at hf
            exact hf
    · rintro ⟨name, s, t, hin, hjson, hs, hstrip⟩
      simp only [scanValidSessions, List.mem_filterMap, List.mem_filter]
      exact ⟨(name, .parsed (some s) t), ⟨hin, hjson⟩,
        by simp [recordValid, hs, hstrip]⟩
  · simp only [scanValidSessions, List.filter_append, List.filterMap_append,
      List.filter_cons]
    congr 1
    cases hj : endsWithJson badName <;> simp [hj, hbad]

theorem scan_valid_sessions_spec_w :
    (("a" : String) ∈ scanValidSessions
        [("a.json", .parsed (some "t") none), ("b.json", .parsed none none)] ↔
      ∃ name s t, (name, FileContent.parsed (some s) t)
          ∈ ([("a.json", .parsed (some "t") none), ("b.json", .parsed none none)] : FS)
        ∧ endsWithJson name = true ∧ s ≠ "" ∧ stripJsonExt name = "a")
    ∧ scanValidSessions
        ([("a.json", .parsed (some "t") none)] ++ ("b.json", .parsed none none)
          :: [("c.json", .unparseable)])
      = scanValidSessions
        ([("a.json", .parsed (some "t") none)] ++ [("c.json", .unparseable)]) :=
  scan_valid_sessions_spec
    [("a.json", .parsed (some "t") none), ("b.json", .parsed none none)]
    [("a.json", .parsed (some "t") none)] [("c.json", .unparseable)]
    "b.json" (.parsed none none) "a" (by decide)

/-- C9: saving a SessionRecord with token `tok` and then loading the
record for the same identifier returns the record whose `session`
field equals `tok` (and the load path classifies it as a usable
token); loading an identifier whose file was never written yields
not-found. -/
theorem session_save_load_roundtrip (fs : FS) (sid tok : String) (ts : Nat)
    (fs2 : FS) (sid2 : String)
    (htok : tok ≠ "")
    (h2 : lookupEntry fs2 (sessionFileName sid2) = none) :
    lookupEntry (saveSession fs sid tok ts) (sessionFileName sid)
      = some (.parsed (some tok) (some ts))
    ∧ loadSession (saveSession fs sid tok ts) sid = .token tok
    ∧ loadSession fs2 sid2 = .notFound := by
  refine ⟨lookupEntry_writeEntry_self _ _ _, ?_, ?_⟩
  · simp [loadSession, saveSession, lookupEntry_writeEntry_self, htok]
  · simp [loadSession, h2]

theorem session_save_load_roundtrip_w :
    lookupEntry (saveSession [] "+1" "T1" 4) (sessionFileName "+1")
      = some (.parsed (some "T1") (some 4))
    ∧ loadSession (saveSession [] "+1" "T1" 4) "+1" = .token "T1"
    ∧ loadSession [] "+2" = .notFound :=
  session_save_load_roundtrip [] "+1" "T1" 4 [] "+2" (by decide) rfl

/-- C10: when the session check fails (missing file, unparseable
content, or no usable `session` field), every stdio MCP tool handler
returns an error reply immediately and never calls into the telegram
layer — in particular no interactive login can be triggered from the
tool boundary. -/
theorem stdio_tools_require_session (fs : FS)
    (session chatId message method : String) (limit : Nat)
    (params : List (String × Json))
    (gd : String → Nat → Except String String)
    (gm : String → String → Nat → Except String String)
    (sm : String → String → String → Except String String)
    (em : String → String → List (String × Json) → Except String String)
    (h : checkSessionExists fs session = false) :
    getDialogsHandler fs gd session limit
      = ⟨true, missingSessionText session, false⟩
    ∧ getMessagesHandler fs gm session chatId limit
      = ⟨true, missingSessionText session, false⟩
    ∧ sendMessageHandler fs sm session chatId message
      = ⟨true, missingSessionText session, false⟩
    ∧ executeMethodHandler fs em session method params
      = ⟨true, missingSessionText session, false⟩ := by
  refine ⟨?_, ?_, ?_, ?_⟩ <;>
    simp [getDialogsHandler, getMessagesHandler, sendMessageHandler,
      executeMethodHandler, h]

theorem stdio_tools_require_session_w :
    getDialogsHandler [("+1000.json", .parsed none none)] (fun _ _ => .ok "d")
        "+1000" 100
      = ⟨true, missingSessionText "+1000", false⟩
    ∧ getMessagesHandler [("+1000.json", .parsed none none)]
        (fun _ _ _ => .ok "m") "+1000" "chat" 100
      = ⟨true, missingSessionText "+1000", false⟩
    ∧ sendMessageHandler [("+1000.json", .parsed none none)]
        (fun _ _ _ => .ok "s") "+1000" "chat" "hello"
      = ⟨true, missingSessionText "+1000", false⟩
    ∧ executeMethodHandler [("+1000.json", .parsed none none)]
        (fun _ _ _ => .ok "e") "+1000" "help.getConfig" []
      = ⟨true, missingSessionText "+1000", false⟩ :=
  stdio_tools_require_session [("+1000.json", .parsed none none)]
    "+1000" "chat" "hello" "help.getConfig" 100 []
    (fun _ _ => .ok "d") (fun _ _ _ => .ok "m") (fun _ _ _ => .ok "s")
    (fun _ _ _ => .ok "e") rfl

end TelegramMcp
